import Mathlib

/-!
# Verification of the employee-management-system repository

Shallow embedding of `src/employees/structs.rs`, `src/employees/errors.rs`
and `src/company/structs.rs` (Rust), followed by theorems settling the
spec's claims about vacation-day bookkeeping, wage calculation and
company aggregation.

Conventions of the embedding:
* `u8` fields become `Nat`; where the `u8` range matters it appears as an
  explicit `≤ 255` hypothesis.
* The `u8` subtraction `self.vacation_days -= days` panics (debug) or
  wraps (release) on underflow, so it is embedded as a checked
  subtraction returning `Option Nat`; `none` is the underflow branch.
  Operations that call it therefore return `Option`, and "the panic
  branch is unreachable" is the theorem that the result is always `some`.
* `f32` wage amounts become `ℚ`. Every wage computation in the source is
  a single product or a field read; at all inputs appearing in the claims
  (10.0, 40.0, and any exactly-represented operands whose product needs
  no rounding) binary32 arithmetic is exact, so the rational model agrees
  with the source there.
* `&mut self` methods become functions returning the result paired with
  the updated value; `Result<(), E>` becomes `Except E Unit`.
-/

namespace EMS

/-- `Person` from `src/employees/structs.rs`: a name and a `u8` age. -/
structure Person where
  name : String
  age : Nat
deriving Repr, DecidableEq

/-- Modelled from the spec: the `Role` enum of `src/employees/enums.rs`
is not under `src/`; the spec describes it as "Role (enumerated set,
e.g. Developer/Manager/…)". Its variants never influence any claim. -/
inductive Role where
  | developer : Role
  | manager : Role
deriving Repr, DecidableEq

/-- The `Wage` trait: `fn calculate_pay(&self) -> f32`, embedded over `ℚ`. -/
class Wage (W : Type) where
  calculate_pay : W → ℚ

/-- `SalariedWage` from `src/employees/structs.rs`. -/
structure SalariedWage where
  monthly_salary : ℚ
deriving Repr, DecidableEq

/-- `impl Wage for SalariedWage`: returns `self.monthly_salary`. -/
instance : Wage SalariedWage where
  calculate_pay w := w.monthly_salary

/-- `HourlyWage` from `src/employees/structs.rs`. -/
structure HourlyWage where
  hourly_rate : ℚ
  hours_worked : ℚ
deriving Repr, DecidableEq

/-- `impl Wage for HourlyWage`: returns `self.hourly_rate * self.hours_worked`. -/
instance : Wage HourlyWage where
  calculate_pay w := w.hourly_rate * w.hours_worked

/-- `VacationDaysShortageError` from `src/employees/errors.rs`. -/
structure VacationDaysShortageError where
  requested_days : Nat
  remaining_days : Nat
  message : String
deriving Repr, DecidableEq

/-- The shortage message built at both failure sites in
`src/employees/structs.rs`. -/
def shortageMessage : String := "Not enough vacation days are available."

/-- `Employee<W: Wage>` from `src/employees/structs.rs`. -/
structure Employee (W : Type) where
  person : Person
  role : Role
  wage : W
  vacation_days : Nat

/-- `Employee::FIXED_VACATION_DAYS_PAYOUT`. -/
def FIXED_VACATION_DAYS_PAYOUT : Nat := 5

/-- Checked `u8` subtraction: `some (a - b)` when no underflow would
occur, `none` for the panic/wrap branch of `a -= b` on `u8`. -/
def u8_checked_sub (a b : Nat) : Option Nat :=
  if b ≤ a then some (a - b) else none

/-- `Employee::subtract_vacation_days`: `self.vacation_days -= days`,
with the `u8` underflow branch surfaced as `none`. -/
def Employee.subtract_vacation_days {W : Type} (e : Employee W) (days : Nat) :
    Option (Employee W) :=
  (u8_checked_sub e.vacation_days days).map
    (fun v => { e with vacation_days := v })

/-- `Employee::take_vacation`: errors when `self.vacation_days < days`,
otherwise debits `days`. `none` would mean the `u8` subtraction
underflowed. -/
def Employee.take_vacation {W : Type} (e : Employee W) (days : Nat) :
    Option (Except VacationDaysShortageError Unit × Employee W) :=
  if e.vacation_days < days then
    some (Except.error
      { requested_days := days
        remaining_days := e.vacation_days
        message := shortageMessage }, e)
  else
    (e.subtract_vacation_days days).map (fun e2 => (Except.ok (), e2))

/-- `Employee::payout_vacation`: errors when
`self.vacation_days < FIXED_VACATION_DAYS_PAYOUT`, otherwise debits the
fixed payout quantum. -/
def Employee.payout_vacation {W : Type} (e : Employee W) :
    Option (Except VacationDaysShortageError Unit × Employee W) :=
  if e.vacation_days < FIXED_VACATION_DAYS_PAYOUT then
    some (Except.error
      { requested_days := FIXED_VACATION_DAYS_PAYOUT
        remaining_days := e.vacation_days
        message := shortageMessage }, e)
  else
    (e.subtract_vacation_days FIXED_VACATION_DAYS_PAYOUT).map
      (fun e2 => (Except.ok (), e2))

/-- Iterated `take_vacation`: call it `n` times in succession with the
same request, threading the employee through; `none` if any call hits
the underflow branch. -/
def Employee.take_vacation_n {W : Type} (e : Employee W) (days : Nat) :
    Nat → Option (Employee W)
  | 0 => some e
  | n + 1 =>
    (e.take_vacation days).bind (fun p => p.2.take_vacation_n days n)

/-- A trace of `n` successive `calculate_pay` calls on the same wage
value (the `&self` receiver is immutable, so each call sees the same
state). -/
def pay_calls (W : Type) [Wage W] (w : W) : Nat → List ℚ
  | 0 => []
  | n + 1 => Wage.calculate_pay w :: pay_calls W w n

/-- `Company<W: Wage>` from `src/company/structs.rs`. -/
structure Company (W : Type) where
  name : String
  employees : List (Employee W)

/-- `Company::add_employee`: `self.employees.push(employee)`. -/
def Company.add_employee {W : Type} (c : Company W) (e : Employee W) :
    Company W :=
  { c with employees := c.employees ++ [e] }

/-- `Company::all_employees`: returns the employee sequence. -/
def Company.all_employees {W : Type} (c : Company W) : List (Employee W) :=
  c.employees

/-- A concrete employee matching the repository's tests: John, 30,
Manager, salaried 1000.0, 20 vacation days. -/
def johnEmployee : Employee SalariedWage :=
  { person := { name := "John", age := 30 }
    role := Role.manager
    wage := { monthly_salary := 1000 }
    vacation_days := 20 }

/-- The employee left after `johnEmployee.take_vacation 3` succeeds. -/
def johnAfterThree : Employee SalariedWage :=
  { johnEmployee with vacation_days := 17 }

/-- Shared unfolding: a successful `take_vacation` computes the debit. -/
theorem take_vacation_of_le {W : Type} (e : Employee W) (d : Nat)
    (h : d ≤ e.vacation_days) :
    e.take_vacation d =
      some (Except.ok (), { e with vacation_days := e.vacation_days - d }) := by
  simp [Employee.take_vacation, Employee.subtract_vacation_days,
    u8_checked_sub, Nat.not_lt.mpr h, h]

/-- Shared unfolding: an over-large `take_vacation` request fails and
returns the employee unchanged. -/
theorem take_vacation_of_lt {W : Type} (e : Employee W) (d : Nat)
    (h : e.vacation_days < d) :
    e.take_vacation d =
      some (Except.error
        { requested_days := d
          remaining_days := e.vacation_days
          message := shortageMessage }, e) := by
  simp [Employee.take_vacation, h]

/-- Shared unfolding: `payout_vacation` is definitionally
`take_vacation` at the fixed payout quantum. -/
theorem payout_vacation_def_take_five {W : Type} (e : Employee W) :
    e.payout_vacation = e.take_vacation 5 := rfl

/-- Shared fact: a `take_vacation` call never reaches the `u8`
underflow branch and never raises the balance. -/
theorem take_vacation_total_le {W : Type} (e : Employee W) (d : Nat) :
    ∃ r, e.take_vacation d = some r ∧ r.2.vacation_days ≤ e.vacation_days := by
  rcases Nat.lt_or_ge e.vacation_days d with hk | hk
  · exact ⟨_, take_vacation_of_lt e d hk, Nat.le_refl _⟩
  · exact ⟨_, take_vacation_of_le e d hk, Nat.sub_le _ _⟩

/-- Shared fact: folding `add_employee` over a list appends it to the
employee sequence and leaves the name unchanged. -/
theorem add_employee_foldl {W : Type} (c : Company W)
    (es : List (Employee W)) :
    (es.foldl Company.add_employee c).employees = c.employees ++ es ∧
    (es.foldl Company.add_employee c).name = c.name := by
  induction es generalizing c with
  | nil => simp
  | cons e es ih =>
    rw [List.foldl_cons]
    obtain ⟨h1, h2⟩ := ih (c.add_employee e)
    refine ⟨?_, h2⟩
    rw [h1]
    simp [Company.add_employee]

end EMS

namespace EMS

/-- C1: for every employee with balance `b` and request `d ≤ b`,
`take_vacation d` returns success together with an employee whose
`vacation_days` balance is exactly `b - d`. -/
theorem take_vacation_sufficient_balance {W : Type} (e : Employee W)
    (d : Nat) (h : d ≤ e.vacation_days) :
    e.take_vacation d =
      some (Except.ok (), { e with vacation_days := e.vacation_days - d }) :=
  take_vacation_of_le e d h

/-- Witness for C1 at the repository's test scenario: John with balance
20 requests 5, succeeds, and is left with balance 15. -/
theorem take_vacation_sufficient_balance_witness :
    johnEmployee.take_vacation 5 =
      some (Except.ok (),
        { johnEmployee with vacation_days := johnEmployee.vacation_days - 5 }) :=
  take_vacation_sufficient_balance johnEmployee 5 (by decide)

/-- C2: for every employee with balance `b` and request `d > b`,
`take_vacation d` fails with a shortage error whose `requested_days` is
`d` and whose `remaining_days` is `b`, and returns the employee
unchanged (no partial debit). -/
theorem take_vacation_shortage {W : Type} (e : Employee W) (d : Nat)
    (h : e.vacation_days < d) :
    e.take_vacation d =
      some (Except.error
        { requested_days := d
          remaining_days := e.vacation_days
          message := shortageMessage }, e) :=
  take_vacation_of_lt e d h

/-- Witness for C2 at the repository's test scenario: John with balance
20 requests 25 and fails with `{requested: 25, remaining: 20}`, balance
untouched. -/
theorem take_vacation_shortage_witness :
    johnEmployee.take_vacation 25 =
      some (Except.error
        { requested_days := 25
          remaining_days := johnEmployee.vacation_days
          message := shortageMessage }, johnEmployee) :=
  take_vacation_shortage johnEmployee 25 (by decide)

/-- C3: `payout_vacation` fails with a shortage error carrying
`requested_days = 5` and `remaining_days` equal to the current balance,
leaving the employee unchanged, exactly when the balance is below 5;
otherwise it debits exactly 5 and succeeds. -/
theorem payout_vacation_five_quantum {W : Type} (e : Employee W) :
    (e.vacation_days < 5 →
      e.payout_vacation =
        some (Except.error
          { requested_days := 5
            remaining_days := e.vacation_days
            message := shortageMessage }, e)) ∧
    (5 ≤ e.vacation_days →
      e.payout_vacation =
        some (Except.ok (), { e with vacation_days := e.vacation_days - 5 })) := by
  constructor
  · intro h
    simp [Employee.payout_vacation, FIXED_VACATION_DAYS_PAYOUT, h]
  · intro h
    simp [Employee.payout_vacation, FIXED_VACATION_DAYS_PAYOUT,
      Employee.subtract_vacation_days, u8_checked_sub, Nat.not_lt.mpr h, h]

/-- Witness for C3 at the repository's test scenarios: John with balance
20 pays out to 15; an employee with balance 2 fails with
`{requested: 5, remaining: 2}`. -/
theorem payout_vacation_five_quantum_witness :
    johnEmployee.payout_vacation =
      some (Except.ok (),
        { johnEmployee with vacation_days := johnEmployee.vacation_days - 5 }) ∧
    ({ johnEmployee with vacation_days := 2 } : Employee SalariedWage).payout_vacation =
      some (Except.error
        { requested_days := 5
          remaining_days := 2
          message := shortageMessage }, { johnEmployee with vacation_days := 2 }) :=
  ⟨(payout_vacation_five_quantum johnEmployee).2 (by decide),
   (payout_vacation_five_quantum { johnEmployee with vacation_days := 2 }).1 (by decide)⟩

/-- C4: `payout_vacation` and `take_vacation 5` are the same operation:
equal success/failure outcome, equal error values and equal resulting
employee (hence equal balances) on every employee state. -/
theorem payout_vacation_eq_take_vacation_five {W : Type} (e : Employee W) :
    e.payout_vacation = e.take_vacation 5 :=
  payout_vacation_def_take_five e

/-- C5: starting from any `u8` balance (`≤ 255`), both vacation
operations always return `some` result — the `u8` subtraction in
`subtract_vacation_days` is only reached under the guard
`days ≤ vacation_days`, so its underflow (panic/wrap) branch is
unreachable — and the resulting balance is again in `[0, 255]`. -/
theorem vacation_days_stay_u8 {W : Type} (e : Employee W) (d : Nat)
    (h : e.vacation_days ≤ 255) :
    (∃ r, e.take_vacation d = some r ∧ r.2.vacation_days ≤ 255) ∧
    (∃ r, e.payout_vacation = some r ∧ r.2.vacation_days ≤ 255) := by
  have key : ∀ k : Nat,
      ∃ r, e.take_vacation k = some r ∧ r.2.vacation_days ≤ 255 := by
    intro k
    obtain ⟨r, hr, hle⟩ := take_vacation_total_le e k
    exact ⟨r, hr, le_trans hle h⟩
  refine ⟨key d, ?_⟩
  rw [payout_vacation_def_take_five]
  exact key 5

/-- Witness for C5: John at balance 20 (a valid `u8`), request 3. -/
theorem vacation_days_stay_u8_witness :
    (∃ r, johnEmployee.take_vacation 3 = some r ∧ r.2.vacation_days ≤ 255) ∧
    (∃ r, johnEmployee.payout_vacation = some r ∧ r.2.vacation_days ≤ 255) :=
  vacation_days_stay_u8 johnEmployee 3 (by decide)

/-- C6: both vacation operations modify only the `vacation_days` field:
whatever result they return, the `person`, `role` and `wage` fields of
the resulting employee equal those of the original. -/
theorem vacation_ops_frame {W : Type} (e : Employee W) (d : Nat) :
    (∀ r e2, e.take_vacation d = some (r, e2) →
      e2.person = e.person ∧ e2.role = e.role ∧ e2.wage = e.wage) ∧
    (∀ r e2, e.payout_vacation = some (r, e2) →
      e2.person = e.person ∧ e2.role = e.role ∧ e2.wage = e.wage) := by
  have key : ∀ (k : Nat) r e2, e.take_vacation k = some (r, e2) →
      e2.person = e.person ∧ e2.role = e.role ∧ e2.wage = e.wage := by
    intro k r e2 hr
    rcases Nat.lt_or_ge e.vacation_days k with hk | hk
    · rw [take_vacation_of_lt e k hk] at hr
      simp only [Option.some.injEq, Prod.mk.injEq] at hr
      rw [← hr.2]
      exact ⟨rfl, rfl, rfl⟩
    · rw [take_vacation_of_le e k hk] at hr
      simp only [Option.some.injEq, Prod.mk.injEq] at hr
      rw [← hr.2]
      exact ⟨rfl, rfl, rfl⟩
  refine ⟨key d, ?_⟩
  rw [payout_vacation_def_take_five]
  exact key 5

/-- Witness for C6: John requests 3 days successfully; the resulting
employee keeps his person, role and wage. -/
theorem vacation_ops_frame_witness :
    johnAfterThree.person = johnEmployee.person ∧
    johnAfterThree.role = johnEmployee.role ∧
    johnAfterThree.wage = johnEmployee.wage :=
  (vacation_ops_frame johnEmployee 3).1 (Except.ok ()) johnAfterThree rfl

/-- C7: with balance `b` and request `d > b`, any number of successive
`take_vacation d` calls leaves the employee (in particular the balance)
unchanged after every call. -/
theorem take_vacation_failure_idempotent {W : Type} (e : Employee W)
    (d n : Nat) (h : e.vacation_days < d) :
    e.take_vacation_n d n = some e := by
  induction n with
  | zero => rfl
  | succ n ih =>
    simp [Employee.take_vacation_n, take_vacation_of_lt e d h, ih]

/-- Witness for C7: John at balance 20 requests 25 four times in a row
and is unchanged. -/
theorem take_vacation_failure_idempotent_witness :
    johnEmployee.take_vacation_n 25 4 = some johnEmployee :=
  take_vacation_failure_idempotent johnEmployee 25 4 (by decide)

/-- C8: `SalariedWage::calculate_pay` returns exactly the stored
`monthly_salary`, and a trace of `n` successive calls is `n` copies of
that same value — the `&self` receiver is immutable, so the wage state
is the same at every call. -/
theorem salaried_calculate_pay_pure (w : SalariedWage) (n : Nat) :
    Wage.calculate_pay w = w.monthly_salary ∧
    pay_calls SalariedWage w n = List.replicate n w.monthly_salary := by
  refine ⟨rfl, ?_⟩
  induction n with
  | zero => rfl
  | succ n ih =>
    simp only [pay_calls, ih, List.replicate]
    rfl

/-- C9: `HourlyWage::calculate_pay` returns exactly the product
`hourly_rate * hours_worked`; at rate 10.0 and hours 40.0 — both
exactly representable in binary32, with an exactly representable
product, so the rational model agrees with `f32` — it returns exactly
400.0. -/
theorem hourly_calculate_pay_product :
    (∀ w : HourlyWage, Wage.calculate_pay w = w.hourly_rate * w.hours_worked) ∧
    Wage.calculate_pay (HourlyWage.mk 10 40) = 400 :=
  ⟨fun _ => rfl, show (10 : ℚ) * 40 = 400 by norm_num⟩

/-- C10: starting from a company with an empty employee sequence,
`n` `add_employee` calls leave `all_employees` returning exactly those
`n` employees in insertion order, and the company name is unchanged
(`all_employees` takes `&self` and cannot mutate, which the embedding
reflects by its pure type). -/
theorem company_add_employee_insertion_order {W : Type} (nm : String)
    (es : List (Employee W)) :
    (es.foldl Company.add_employee (Company.mk nm [])).all_employees = es ∧
    (es.foldl Company.add_employee (Company.mk nm [])).all_employees.length
      = es.length ∧
    (es.foldl Company.add_employee (Company.mk nm [])).name = nm := by
  obtain ⟨h1, h2⟩ := add_employee_foldl (Company.mk nm []) es
  refine ⟨?_, ?_, h2⟩
  · show (es.foldl Company.add_employee (Company.mk nm [])).employees = es
    rw [h1]
    simp
  · show (es.foldl Company.add_employee (Company.mk nm [])).employees.length
      = es.length
    rw [h1]
    simp

end EMS
